import Mathlib

/-!
Shallow embedding of the core logic of the smart-health-monitor application
(`src/script.js`): severity scorers, temperature normalization, the risk
classifier `analyzeHealthData`, the suggestion engine `generateAISuggestion`,
and the hospital matching/ranking functions (`nearest`, the filter-based
listing of `renderHospitals`).

JavaScript numbers are modelled as exact rationals (`ℚ`); the distinguished
non-finite values (`null`, `NaN`, `Infinity`) are modelled by explicit
inductive cases wherever the code can observe them.  Strings are Lean
`String`s; `jsToLower`, `jsTrim` and `jsIncludes` below model
`toLowerCase()`, `trim()` and `String.prototype.includes` (the data involved
is ASCII, where the JS and Lean notions agree), written over `List Char` so
that they evaluate inside the kernel.
-/

set_option linter.unusedVariables false

namespace HealthMonitor

/-- `String.prototype.toLowerCase` (ASCII). -/
def jsToLower (s : String) : String := String.mk (s.data.map Char.toLower)

/-- `String.prototype.trim`: strip leading and trailing whitespace. -/
def jsTrim (s : String) : String :=
  String.mk (((s.data.dropWhile Char.isWhitespace).reverse.dropWhile Char.isWhitespace).reverse)

/-- Does `pat` occur at the head of the character list? -/
def startsWith : List Char → List Char → Bool
  | _, [] => true
  | [], _ :: _ => false
  | a :: as, b :: bs => a == b && startsWith as bs

/-- Does `pat` occur anywhere in the character list? -/
def containsSeq (pat : List Char) : List Char → Bool
  | [] => startsWith [] pat
  | c :: t => startsWith (c :: t) pat || containsSeq pat t

/-- `s.includes(sub)`: substring containment (the empty string is contained
in every string, as in JavaScript). -/
def jsIncludes (s sub : String) : Bool := containsSeq sub.data s.data

/-- A raw vital value as it sits in a health record: absent (JS `null`,
`undefined` or the empty string), numeric but non-finite (`NaN`,
`±Infinity`), or a finite number modelled as a rational. -/
inductive RawNum where
  | absent
  | nonfinite
  | val (q : ℚ)
deriving DecidableEq, Repr

/-- The fields of a health record that the core functions under test read:
`id`, `temperature` and `symptoms`.  (The remaining vitals — heart rate,
blood pressure, oxygen, glucose, urine, notes — are never read by
`feverSeverityFromRecord`, `painSeverityFromRecord`, `analyzeHealthData` or
`generateAISuggestion` in `src/script.js`.) -/
structure Record where
  id : String
  temperature : RawNum
  symptoms : List String
deriving DecidableEq, Repr

/-- The fields of the user profile read by `generateAISuggestion`. -/
structure Profile where
  medications : List String
  allergies : List String
deriving DecidableEq, Repr

/-- The Celsius-vs-Fahrenheit disambiguation used throughout `script.js`:
`(n <= 45) ? (n * 9 / 5 + 32) : n`. -/
def toFahrenheit (q : ℚ) : ℚ := if q ≤ 45 then q * 9 / 5 + 32 else q

/-- `feverSeverityFromRecord` (script.js lines 141-156).  A null record
returns 0 (guard `if (!record) return 0`); that wrapper is
`feverSeverityFromRecordJS` below.  Absent temperature (`null` or `""`)
falls back to the "fever" symptom check; a non-finite numeric temperature
returns 0; otherwise the Fahrenheit value is banded. -/
def feverSeverityFromRecord (record : Record) : ℕ :=
  match record.temperature with
  | RawNum.absent =>
      if record.symptoms.any (fun s => jsToLower s == "fever") then 5 else 0
  | RawNum.nonfinite => 0
  | RawNum.val n =>
      let tempF := toFahrenheit n
      if tempF < 98 then 0
      else if tempF < 99.5 then 2
      else if tempF < 100.4 then 4
      else if tempF < 102 then 7
      else 9

/-- `painSeverityFromRecord` (script.js lines 158-168): additive score over
the lowercased symptom list, capped at 9.  Note the body dereferences
`record.symptoms` with no null guard; the null-record behaviour is captured
by `painSeverityFromRecordJS` below. -/
def painSeverityFromRecord (record : Record) : ℕ :=
  if record.symptoms.length ≠ 0 then
    let sLower := record.symptoms.map jsToLower
    let score1 := if sLower.contains "chest pain" then 0 + 6 else 0
    let score2 := if sLower.contains "headache" then score1 + 3 else score1
    let score3 := if sLower.contains "fatigue" then score2 + 1 else score2
    if score3 > 9 then 9 else score3
  else 0

/-- `feverSeverityFromRecord` called with a possibly-null argument.  The
source guards with `if (!record) return 0`, so the null case succeeds with
0. -/
def feverSeverityFromRecordJS : Option Record → Except String ℕ
  | none => Except.ok 0
  | some r => Except.ok (feverSeverityFromRecord r)

/-- `painSeverityFromRecord` called with a possibly-null argument.  The
source has no null guard and immediately reads `record.symptoms`, which on
`null` raises an uncaught `TypeError`; the error case models that fault. -/
def painSeverityFromRecordJS : Option Record → Except String ℕ
  | none => Except.error "TypeError: Cannot read properties of null (reading symptoms)"
  | some r => Except.ok (painSeverityFromRecord r)

/-- JavaScript `Math.round`: round half toward positive infinity. -/
def jsRound (q : ℚ) : ℤ := ⌊q + 1/2⌋

/-- `Math.round(x * 10) / 10`: round to one decimal place. -/
def round1 (q : ℚ) : ℚ := (jsRound (q * 10) : ℚ) / 10

/-- The temperature normalization of `generateAISuggestion`
(script.js lines 758-761): `tempF = (tempRaw <= 45) ? (tempRaw*9/5+32) :
tempRaw; tempF = Math.round(tempF * 10) / 10;`.  Note the rounding is
applied on both branches of the ternary. -/
def normalizeTemp (t : ℚ) : ℚ := round1 (toFahrenheit t)

/-- The output record of `analyzeHealthData`: `{ level, message,
recommendations }`. -/
structure Analysis where
  level : String
  message : String
  recommendations : List String
deriving DecidableEq, Repr

/-- The escalation cascade inside the abnormal-temperature block of
`analyzeHealthData` (script.js lines 707-723), threading the incoming
`level` exactly as the source ternaries do.  Returns the new level and the
pushed recommendation. -/
def tempChecks (level0 : String) (tempF : ℚ) : String × List String :=
  if tempF > 103 then
    (if level0 == "emergency" then "emergency" else "urgent",
     ["High fever or hypothermia - seek medical care"])
  else if tempF > 120 then
    (if level0 == "invalid" then "invalid" else "emergency",
     ["very high temperature - fault in thermometer"])
  else if tempF < 92 then
    (if level0 == "emergency" then "emergency" else "urgent",
     ["low body temperature - seek medical care"])
  else if tempF < 50 then
    (if level0 == "invalid" then "invalid" else "emergency",
     ["very low temperature - fault in thermometer"])
  else
    (if level0 == "normal" then "warning" else level0,
     ["Monitor temperature and stay hydrated"])

/-- `analyzeHealthData` (script.js lines 691-735).  The `history` argument
is accepted but never read by the source body.  `isNum` admits exactly the
finite numeric temperatures; the message is chosen from the final level and
the accumulated issue labels. -/
def analyzeHealthData (current : Record) (history : List Record) : Analysis :=
  let tempF? : Option ℚ :=
    match current.temperature with
    | RawNum.val n => some (toFahrenheit n)
    | _ => none
  let triple : List String × String × List String :=
    match tempF? with
    | some tempF =>
        if tempF > 100.4 ∨ tempF < 95 then
          let lr := tempChecks "normal" tempF
          (["abnormal temperature"], lr.1, lr.2)
        else ([], "normal", [])
    | none => ([], "normal", [])
  let issues := triple.1
  let level := triple.2.1
  let recommendations := triple.2.2
  if level = "normal" then
    { level := level,
      message := "All vitals are within normal range. Keep up the good work!",
      recommendations :=
        recommendations ++ ["Continue monitoring daily", "Maintain healthy diet and exercise"] }
  else if level = "warning" then
    { level := level,
      message := "Some vitals need attention: " ++ String.intercalate ", " issues,
      recommendations := recommendations }
  else if level = "urgent" then
    { level := level,
      message := "Urgent attention needed: " ++ String.intercalate ", " issues,
      recommendations := recommendations }
  else
    { level := level,
      message := "EMERGENCY: Critical health indicators detected - " ++ String.intercalate ", " issues,
      recommendations := recommendations }

/-- The output object of `generateAISuggestion`.  The source stamps
`generatedAt: new Date().toISOString()`; the clock reading is passed in as
the `now` argument of the embedding. -/
structure SuggestionOut where
  recordId : String
  summary : String
  reasons : List String
  suggestions : List String
  generatedAt : String
deriving DecidableEq, Repr

/-- Stands in for JavaScript number-to-string conversion inside template
strings (reason texts such as `High temperature ${tempF}°F`).  No claim
below depends on its output. -/
def fmtQ (q : ℚ) : String := toString q.num ++ "/" ++ toString q.den

/-- The lowercased-and-trimmed symptom list computed at the top of
`generateAISuggestion`: `(current.symptoms || []).map(s => String(s ||
"").toLowerCase().trim())`. -/
def lowerTrimSymptoms (current : Record) : List String :=
  current.symptoms.map (fun s => jsTrim (jsToLower s))

/-- The emergency-priority check of `generateAISuggestion` (script.js line
767). -/
def emergencySymptom (current : Record) : Bool :=
  (lowerTrimSymptoms current).contains "chest pain" ||
  (lowerTrimSymptoms current).contains "shortness of breath" ||
  (lowerTrimSymptoms current).contains "breathlessness"

/-- The suggestion/reason pairs accumulated by the non-emergency steps of
`generateAISuggestion` (script.js lines 781-839): temperature bands, pain
bands, trend comparison against `history[0]`, and profile augmentation.
Every `suggestions.push` in the source is paired with a `reasons.push`, so
the accumulation is modelled as a list of pairs (suggestion, reason). -/
def steps2to5 (current : Record) (history : List Record) (userProfile : Option Profile) :
    List (String × String) :=
  let symptoms := lowerTrimSymptoms current
  let tempF? : Option ℚ :=
    match current.temperature with
    | RawNum.val n => some (normalizeTemp n)
    | _ => none
  let tempStep : List (String × String) :=
    match tempF? with
    | some tempF =>
        if tempF ≥ 104 then
          [("High fever (>=104°F) — seek urgent medical care.",
            "High temperature " ++ fmtQ tempF ++ "°F")]
        else if tempF ≥ 100.4 then
          [("Fever detected — rest, hydrate, take antipyretic like paracetamol per dosing instructions, recheck in 2–4 hours.",
            "Fever " ++ fmtQ tempF ++ "°F")]
        else if tempF ≥ 99.5 then
          [("Low-grade fever — monitor, rest, hydrate. Contact clinician if it rises or other concerning symptoms appear.",
            "Low-grade fever " ++ fmtQ tempF ++ "°F")]
        else if tempF < 95 then
          [("Measured temperature unusually low — verify thermometer and re-measure; seek care if symptomatic.",
            "Low measured temp " ++ fmtQ tempF ++ "°F")]
        else []
    | none =>
        if symptoms.contains "fever" then
          [("Reported fever symptom — measure temperature, hydrate, consider antipyretic if needed.",
            "Reported symptom: fever")]
        else []
  let painScore := painSeverityFromRecord current
  let painStep : List (String × String) :=
    if painScore ≥ 8 then
      [("Severe pain — consider urgent clinical assessment.",
        "Severe pain score " ++ toString painScore ++ "/10")]
    else if painScore ≥ 4 then
      [("Moderate pain — rest, consider an analgesic per usual guidance, and contact clinician if pain persists or worsens.",
        "Moderate pain " ++ toString painScore ++ "/10")]
    else []
  let trendStep : List (String × String) :=
    match history with
    | [] => []
    | prev :: _ =>
        (if feverSeverityFromRecord current > feverSeverityFromRecord prev ∧
            feverSeverityFromRecord current ≥ 4 then
          [("Fever trending up compared to previous check — contact clinician if it continues to rise.",
            "Upward fever trend")]
         else []) ++
        (if painSeverityFromRecord current > painSeverityFromRecord prev ∧
            painSeverityFromRecord current ≥ 4 then
          [("Pain worsening vs previous check — consider contacting your doctor.",
            "Worsening pain trend")]
         else [])
  let profileStep : List (String × String) :=
    match userProfile with
    | none => []
    | some p =>
        (if p.medications ≠ [] then
          [("Continue prescribed medications: " ++ String.intercalate ", " p.medications ++
              " unless instructed otherwise.",
            "On regular medications")]
         else []) ++
        (if p.allergies ≠ [] then
          [("Allergies recorded: " ++ String.intercalate ", " p.allergies ++
              " — inform any treating clinician.",
            "Known allergies")]
         else [])
  tempStep ++ painStep ++ trendStep ++ profileStep

/-- The baseline fallback of `generateAISuggestion` (script.js lines
842-845): if no suggestion was pushed, push the generic monitoring pair. -/
def withFallbackList (current : Record) (history : List Record)
    (userProfile : Option Profile) : List (String × String) :=
  if steps2to5 current history userProfile = [] then
    [("No urgent issues detected. Monitor daily, rest, hydrate, and seek care if symptoms worsen.",
      "Routine monitoring")]
  else steps2to5 current history userProfile

/-- The dedupe filter of `generateAISuggestion` (script.js lines 848-853):
keep an element only if it has not been seen yet, preserving
first-occurrence order. -/
def dedupeKeep (seen : List String) : List String → List String
  | [] => []
  | s :: rest => if s ∈ seen then dedupeKeep seen rest else s :: dedupeKeep (s :: seen) rest

/-- `generateAISuggestion` (script.js lines 742-864).  `now` is the clock
reading used for `generatedAt`; `userProfile` is the `state.userProfile`
global passed explicitly; a null `current` returns null. -/
def generateAISuggestion (now : String) (userProfile : Option Profile)
    (current? : Option Record) (history : List Record) : Option SuggestionOut :=
  match current? with
  | none => none
  | some current =>
    if emergencySymptom current then
      some { recordId := current.id,
             summary := "URGENT: Chest pain / breathlessness — seek emergency care now.",
             reasons := ["Chest pain / breathlessness reported"],
             suggestions :=
               ["Call emergency services or go to the nearest emergency department immediately.",
                "If available, take someone with you and inform them of the symptoms."],
             generatedAt := now }
    else
      let withFb := withFallbackList current history userProfile
      let deduped := dedupeKeep [] (withFb.map Prod.fst)
      let summary :=
        match deduped with
        | [] => "No specific suggestion."
        | s :: _ => if s = "" then "No specific suggestion." else s
      some { recordId := current.id,
             summary := summary,
             reasons := withFb.map Prod.snd,
             suggestions := deduped,
             generatedAt := now }

/-- Witness record for `suggestion_postprocessing`: no emergency symptom,
no temperature, only "cough" reported. -/
def witnessRecord7 : Record :=
  { id := "w7", temperature := RawNum.absent, symptoms := ["cough"] }

/-- The concrete output of `generateAISuggestion` on `witnessRecord7`. -/
def witnessOut7 : SuggestionOut :=
  { recordId := "w7",
    summary := "No urgent issues detected. Monitor daily, rest, hydrate, and seek care if symptoms worsen.",
    reasons := ["Routine monitoring"],
    suggestions :=
      ["No urgent issues detected. Monitor daily, rest, hydrate, and seek care if symptoms worsen."],
    generatedAt := "t7" }

/-- A hospital's cached `distanceKm` field as JavaScript can observe it:
`null` (never computed), `Infinity` (computed with missing coordinates), or
a finite number. -/
inductive JsDist where
  | null
  | inf
  | fin (q : ℚ)
deriving DecidableEq, Repr

/-- A hospital entry as built by `fetchHospitals`/persistence.  The display
string `Distance` (the formatted mirror of `distanceKm`) is omitted: no
function under test reads it back. -/
structure Hospital where
  Name : String
  lat : Option ℚ
  lng : Option ℚ
  Contact : String
  Category : List String
  specialties : List String
  emergencyAvailable : Bool
  distanceKm : JsDist
deriving DecidableEq, Repr

/-- The module-level mutable state read by `nearest` and `renderHospitals`:
the hospital cache, the user coordinates, and the two UI filters. -/
structure AppState where
  hospitals : List Hospital
  userLat : Option ℚ
  userLon : Option ℚ
  emergencyOnly : Bool
  selectedSpecialty : String
deriving DecidableEq, Repr

/-- `getDistance` (script.js lines 114-125): returns `Infinity` when any
coordinate is null/NaN (modelled by `Option.none`), otherwise the haversine
great-circle value.  The transcendental haversine core is abstracted as the
parameter `geo`; every claim below depends only on the guard. -/
def getDistance (geo : ℚ → ℚ → ℚ → ℚ → ℚ) :
    Option ℚ → Option ℚ → Option ℚ → Option ℚ → JsDist
  | some a, some b, some c, some d => JsDist.fin (geo a b c d)
  | _, _, _, _ => JsDist.inf

/-- The distance refresh inside `nearest` (script.js lines 291-296):
recompute when the cached value is `null` or not finite, keep it
otherwise. -/
def recomputeDist (geo : ℚ → ℚ → ℚ → ℚ → ℚ) (st : AppState) (h : Hospital) : Hospital :=
  match h.distanceKm with
  | JsDist.fin _ => h
  | _ => { h with distanceKm := getDistance geo st.userLat st.userLon h.lat h.lng }

/-- The sort key `(h.distanceKm || Infinity)` used by both comparators
(script.js lines 297 and 633).  JavaScript `||` replaces every falsy value
— `null`, `NaN`, `Infinity` has no effect, but also the number `0` — with
`Infinity`, modelled as `⊤`. -/
def jsFalsyKey : JsDist → WithTop ℚ
  | JsDist.null => ⊤
  | JsDist.inf => ⊤
  | JsDist.fin q => if q = 0 then ⊤ else (q : WithTop ℚ)

/-- Sort key of a hospital. -/
def hospKey (h : Hospital) : WithTop ℚ := jsFalsyKey h.distanceKm

/-- `filtered.sort((a, b) => (a.distanceKm || Infinity) - (b.distanceKm ||
Infinity))`: a stable sort by `hospKey` (JavaScript `Array.prototype.sort`
is stable, and `List.insertionSort` is the stable sort by the same total
preorder; two infinite keys compare as equal because the comparator returns
`NaN`, which `sort` treats as 0). -/
def sortByDistance (l : List Hospital) : List Hospital :=
  l.insertionSort (fun a b => hospKey a ≤ hospKey b)

/-- The match predicate inside `nearest` (script.js lines 284-289): the
trimmed lowercased query equals a category entry, or is a substring of a
specialty tag, or of a non-empty hospital name. -/
def matchesQuery (q : String) (h : Hospital) : Bool :=
  (h.Category.any (fun c => jsToLower c == q)) ||
  (h.specialties.any (fun s => jsIncludes (jsToLower s) q)) ||
  (h.Name != "" && jsIncludes (jsToLower h.Name) q)

/-- `nearest` (script.js lines 281-299): empty (falsy) query returns null;
otherwise filter by `matchesQuery`, return null when nothing matches, else
refresh missing/non-finite distances, sort by the falsy-key comparator and
keep the first 3. -/
def nearest (geo : ℚ → ℚ → ℚ → ℚ → ℚ) (st : AppState) (type : String) :
    Option (List Hospital) :=
  if type = "" then none
  else
    let q := jsTrim (jsToLower type)
    let filtered := st.hospitals.filter (fun h => matchesQuery q h)
    if filtered = [] then none
    else some ((sortByDistance (filtered.map (recomputeDist geo st))).take 3)

/-- The filter of `renderHospitals` (script.js lines 629-632): drop
non-emergency hospitals when `emergencyOnly` is set, and drop hospitals
missing the selected specialty when one (other than falsy `""` or "all") is
selected. -/
def renderFilter (st : AppState) (h : Hospital) : Bool :=
  if st.emergencyOnly && !h.emergencyAvailable then false
  else if st.selectedSpecialty != "" && st.selectedSpecialty != "all" &&
      !(h.specialties.contains st.selectedSpecialty) then false
  else true

/-- The filter-based hospital listing of `renderHospitals` (script.js line
633): full filtered set sorted by the same falsy-key comparator, no
truncation. -/
def renderHospitalsList (st : AppState) : List Hospital :=
  sortByDistance (st.hospitals.filter (renderFilter st))

/-- The sort key the claim describes: distance value ascending, only
missing/non-finite distances pushed to infinity. -/
def claimKey : JsDist → WithTop ℚ
  | JsDist.null => ⊤
  | JsDist.inf => ⊤
  | JsDist.fin q => (q : WithTop ℚ)

/-- Is the list ascending by actual distance (unknown-distance last), as
the claim asserts of `nearest`'s output? -/
def ascendingByDistance : List Hospital → Bool
  | [] => true
  | [_] => true
  | a :: b :: t =>
      decide (claimKey a.distanceKm ≤ claimKey b.distanceKm) && ascendingByDistance (b :: t)

/-- Placeholder haversine core for concrete scenarios; never invoked in
them, since every cached distance is finite. -/
def geoZero : ℚ → ℚ → ℚ → ℚ → ℚ := fun _ _ _ _ => 0

/-- C8 counterexample data: hospital "A" sits exactly at the user's
coordinates with cached distance 0 km. -/
def c8A : Hospital :=
  { Name := "A", lat := some 10, lng := some 20, Contact := "N/A",
    Category := ["heart"], specialties := ["General"],
    emergencyAvailable := false, distanceKm := JsDist.fin 0 }

/-- C8 counterexample data: hospital "B", 5 km away. -/
def c8B : Hospital :=
  { Name := "B", lat := some 11, lng := some 20, Contact := "N/A",
    Category := ["general"], specialties := ["Heart Surgery"],
    emergencyAvailable := false, distanceKm := JsDist.fin 5 }

/-- C8 counterexample state. -/
def c8State : AppState :=
  { hospitals := [c8A, c8B], userLat := some 10, userLon := some 20,
    emergencyOnly := false, selectedSpecialty := "all" }

/-- C8 witness data: hospital "A", category heart, 5 km away. -/
def w8A : Hospital :=
  { Name := "A", lat := some 10, lng := some 20, Contact := "N/A",
    Category := ["heart"], specialties := ["General"],
    emergencyAvailable := false, distanceKm := JsDist.fin 5 }

/-- C8 witness data: hospital "B", specialty "Heart Surgery", 1 km away. -/
def w8B : Hospital :=
  { Name := "B", lat := some 10, lng := some 21, Contact := "N/A",
    Category := ["general"], specialties := ["Heart Surgery"],
    emergencyAvailable := false, distanceKm := JsDist.fin 1 }

/-- C8 witness state. -/
def w8State : AppState :=
  { hospitals := [w8A, w8B], userLat := some 10, userLon := some 20,
    emergencyOnly := false, selectedSpecialty := "all" }

/-- C10 data: "Zero Clinic" sits exactly at the user's coordinates, with
cached distance 0 km. -/
def c10Zero : Hospital :=
  { Name := "Zero Clinic", lat := some 10, lng := some 20, Contact := "N/A",
    Category := ["general"], specialties := ["General"],
    emergencyAvailable := false, distanceKm := JsDist.fin 0 }

/-- C10 data: "Near Clinic", 2 km away. -/
def c10Near : Hospital :=
  { Name := "Near Clinic", lat := some 10, lng := some 21, Contact := "N/A",
    Category := ["general"], specialties := ["General"],
    emergencyAvailable := false, distanceKm := JsDist.fin 2 }

/-- C10 data: "Far Clinic", 5 km away. -/
def c10Far : Hospital :=
  { Name := "Far Clinic", lat := some 10, lng := some 22, Contact := "N/A",
    Category := ["general"], specialties := ["General"],
    emergencyAvailable := false, distanceKm := JsDist.fin 5 }

/-- C10 state. -/
def c10State : AppState :=
  { hospitals := [c10Zero, c10Near, c10Far], userLat := some 10, userLon := some 20,
    emergencyOnly := false, selectedSpecialty := "all" }

/-- C4: `feverSeverityFromRecord` returns the band value of the normalized
Fahrenheit temperature (`F = t*9/5+32` when `t ≤ 45`, else `t`): 0 if
`F < 98`, 2 if `F < 99.5`, 4 if `F < 100.4`, 7 if `F < 102`, 9 otherwise;
5 when the temperature is absent but a symptom equals "fever"
case-insensitively; and 0 in all other cases (absent without "fever", or a
non-finite numeric value). -/
theorem feverSeverity_bands (r : Record) :
    feverSeverityFromRecord r =
      match r.temperature with
      | RawNum.val t =>
          let F := if t ≤ 45 then t * 9 / 5 + 32 else t
          if F < 98 then 0
          else if F < 99.5 then 2
          else if F < 100.4 then 4
          else if F < 102 then 7
          else 9
      | RawNum.absent =>
          if r.symptoms.any (fun s => jsToLower s == "fever") then 5 else 0
      | RawNum.nonfinite => 0 := by
  cases h : r.temperature <;> simp [feverSeverityFromRecord, toFahrenheit, h]

/-- C6: `painSeverityFromRecord` equals 6·[chest pain] + 3·[headache] +
1·[fatigue] capped at 9 (membership tested on the lowercased symptom list);
hence it always lies in [0, 9], and a record carrying all three symptoms
scores exactly 9, not 10. -/
theorem painSeverity_additive_capped (r : Record) :
    painSeverityFromRecord r =
      min ((if (r.symptoms.map jsToLower).contains "chest pain" then 6 else 0) +
           (if (r.symptoms.map jsToLower).contains "headache" then 3 else 0) +
           (if (r.symptoms.map jsToLower).contains "fatigue" then 1 else 0)) 9 ∧
    painSeverityFromRecord r ≤ 9 ∧
    painSeverityFromRecord
      { id := "all-three", temperature := RawNum.absent,
        symptoms := ["chest pain", "headache", "fatigue"] } = 9 := by
  have heq : painSeverityFromRecord r =
      min ((if (r.symptoms.map jsToLower).contains "chest pain" then 6 else 0) +
           (if (r.symptoms.map jsToLower).contains "headache" then 3 else 0) +
           (if (r.symptoms.map jsToLower).contains "fatigue" then 1 else 0)) 9 := by
    rcases r with ⟨rid, rtemp, syms⟩
    by_cases h0 : syms = []
    · simp [painSeverityFromRecord, h0]
    · have hlen : syms.length ≠ 0 := by
        simpa [List.length_eq_zero] using h0
      show painSeverityFromRecord ⟨rid, rtemp, syms⟩ = _
      unfold painSeverityFromRecord
      simp only []
      rw [if_pos hlen]
      generalize (List.map jsToLower syms).contains "chest pain" = b1
      generalize (List.map jsToLower syms).contains "headache" = b2
      generalize (List.map jsToLower syms).contains "fatigue" = b3
      cases b1 <;> cases b2 <;> cases b3 <;> decide
  exact ⟨heq, heq ▸ min_le_right _ _, by decide⟩

/-- C9 (counterexample): calling `painSeverityFromRecord` with a null record
raises an uncaught `TypeError` (the body reads `record.symptoms` without the
null guard that `feverSeverityFromRecord` has), so the scorers are not total
on a null record argument. -/
theorem painSeverityJS_null_faults :
    painSeverityFromRecordJS none =
      Except.error "TypeError: Cannot read properties of null (reading symptoms)" := rfl

/-- C9 (amended): both severity scorers are total over every actual record,
including records with absent optional fields; `feverSeverityFromRecord`
additionally tolerates a null record (returning 0), while the null case of
`painSeverityFromRecord` is the fault exhibited separately. -/
theorem severityScorers_total_on_records (r : Record) :
    feverSeverityFromRecordJS (some r) = Except.ok (feverSeverityFromRecord r) ∧
    painSeverityFromRecordJS (some r) = Except.ok (painSeverityFromRecord r) ∧
    feverSeverityFromRecordJS none = Except.ok 0 :=
  ⟨rfl, rfl, rfl⟩

/-- Evaluation helper: `jsRound q = n` whenever `n ≤ q + 1/2 < n + 1`. -/
theorem jsRound_eq {q : ℚ} {n : ℤ} (h1 : (n : ℚ) ≤ q + 1/2) (h2 : q + 1/2 < n + 1) :
    jsRound q = n := by
  rw [jsRound, Int.floor_eq_iff]
  exact ⟨h1, by linarith⟩

/-- C5 (counterexample): the claim that a raw temperature above 45 is used
"unchanged" fails: the code rounds both branches, so a Fahrenheit reading of
98.66 is normalized to 98.7, not left as 98.66. -/
theorem normalizeTemp_not_identity_above_45 :
    normalizeTemp (9866/100) = 987/10 ∧ (987/10 : ℚ) ≠ 9866/100 ∧ (9866/100 : ℚ) > 45 := by
  refine ⟨?_, by norm_num, by norm_num⟩
  rw [normalizeTemp, toFahrenheit, if_neg (by norm_num), round1,
    show jsRound (9866/100 * 10) = 987 from jsRound_eq (by norm_num) (by norm_num)]
  norm_num

/-- C5 (amended): the normalized temperature equals `t*9/5+32` rounded to
one decimal place when `t ≤ 45`, and `t` rounded to one decimal place when
`t > 45`; in particular a `t > 45` that already has at most one decimal
place is returned unchanged. -/
theorem normalizeTemp_spec (t : ℚ) :
    (t ≤ 45 → normalizeTemp t = round1 (t * 9 / 5 + 32)) ∧
    (t > 45 → normalizeTemp t = round1 t) ∧
    (t > 45 → ∀ k : ℤ, t = (k : ℚ) / 10 → normalizeTemp t = t) := by
  refine ⟨fun h => by rw [normalizeTemp, toFahrenheit, if_pos h],
          fun h => by rw [normalizeTemp, toFahrenheit, if_neg (not_le.mpr h)],
          fun h k hk => ?_⟩
  rw [normalizeTemp, toFahrenheit, if_neg (not_le.mpr h), round1, hk]
  rw [show ((k : ℚ) / 10) * 10 = (k : ℚ) by field_simp]
  rw [show jsRound (k : ℚ) = k from jsRound_eq (by norm_num) (by norm_num)]

/-- Witness for `normalizeTemp_spec`, at 39 (Celsius regime) and at
98.6 = 493/5 (Fahrenheit regime with one decimal place). -/
theorem normalizeTemp_spec_witness :
    ((39 : ℚ) ≤ 45 ∧ normalizeTemp 39 = round1 (39 * 9 / 5 + 32)) ∧
    ((493/5 : ℚ) > 45 ∧ normalizeTemp (493/5) = round1 (493/5) ∧
      normalizeTemp (493/5) = 493/5) :=
  ⟨⟨by norm_num, (normalizeTemp_spec 39).1 (by norm_num)⟩,
   ⟨by norm_num, (normalizeTemp_spec (493/5)).2.1 (by norm_num),
    (normalizeTemp_spec (493/5)).2.2 (by norm_num) 986 (by norm_num)⟩⟩

/-- C2: for every record whose normalized temperature exceeds 103°F, the
first matching branch of the cascade wins: the analysis flags "abnormal
temperature" (visible in the urgent message), the level becomes "urgent",
and the only recommendation is the seek-medical-care string — the later
`> 120` sensor-fault branch never fires. -/
theorem analyze_over103_first_branch_wins (r : Record) (history : List Record) (t : ℚ)
    (hT : r.temperature = RawNum.val t) (h103 : toFahrenheit t > 103) :
    (analyzeHealthData r history).level = "urgent" ∧
    (analyzeHealthData r history).message = "Urgent attention needed: abnormal temperature" ∧
    (analyzeHealthData r history).recommendations =
      ["High fever or hypothermia - seek medical care"] ∧
    "very high temperature - fault in thermometer" ∉
      (analyzeHealthData r history).recommendations := by
  have habn : toFahrenheit t > 100.4 ∨ toFahrenheit t < 95 := Or.inl (by linarith)
  have hres : analyzeHealthData r history =
      { level := "urgent",
        message := "Urgent attention needed: abnormal temperature",
        recommendations := ["High fever or hypothermia - seek medical care"] } := by
    unfold analyzeHealthData
    rw [hT]
    simp only [if_pos habn, tempChecks, if_pos h103]
    decide
  rw [hres]
  exact ⟨rfl, rfl, rfl, by simp⟩

/-- Witness for `analyze_over103_first_branch_wins` at a record with raw
temperature 105 (already Fahrenheit, above 103). -/
theorem analyze_over103_witness :
    ({ id := "w2", temperature := RawNum.val 105, symptoms := [] } : Record).temperature =
        RawNum.val 105 ∧
    toFahrenheit 105 > 103 ∧
    (analyzeHealthData { id := "w2", temperature := RawNum.val 105, symptoms := [] } []).level =
      "urgent" :=
  ⟨rfl, by rw [toFahrenheit, if_neg (by norm_num)]; norm_num,
   (analyze_over103_first_branch_wins _ []
      105 rfl (by rw [toFahrenheit, if_neg (by norm_num)]; norm_num)).1⟩

/-- C1: at a raw temperature of 130°F — above the 120°F sensor-fault
threshold — `analyzeHealthData` does NOT produce the distinct thermometer
fault classification: the `> 103` branch shadows the `> 120` branch, so the
level is "urgent" (not "emergency") and the recommendation is the ordinary
high-fever string, not the fault string.  This contradicts the spec's
sensor-fault requirement: the fault branch in the source is unreachable. -/
theorem analyze_at_130_no_fault_branch :
    (analyzeHealthData { id := "c1", temperature := RawNum.val 130, symptoms := [] } []) =
      { level := "urgent",
        message := "Urgent attention needed: abnormal temperature",
        recommendations := ["High fever or hypothermia - seek medical care"] } ∧
    "very high temperature - fault in thermometer" ∉
      (analyzeHealthData { id := "c1", temperature := RawNum.val 130, symptoms := [] } []).recommendations := by
  have h130 : toFahrenheit (130 : ℚ) > 103 := by
    rw [toFahrenheit, if_neg (by norm_num)]; norm_num
  have habn : toFahrenheit (130 : ℚ) > 100.4 ∨ toFahrenheit (130 : ℚ) < 95 :=
    Or.inl (by linarith)
  have hres : (analyzeHealthData { id := "c1", temperature := RawNum.val 130, symptoms := [] } []) =
      { level := "urgent",
        message := "Urgent attention needed: abnormal temperature",
        recommendations := ["High fever or hypothermia - seek medical care"] } := by
    unfold analyzeHealthData
    simp only [if_pos habn, tempChecks, if_pos h130]
    decide
  exact ⟨hres, by rw [hres]; simp⟩

/-- C3: whenever the symptom set contains (case-insensitively) "chest
pain", "shortness of breath" or "breathlessness", `generateAISuggestion`
returns immediately with exactly the two fixed urgent suggestion strings —
for every temperature, history and profile, none of which influence the
result. -/
theorem suggestion_emergency_short_circuit (now : String) (userProfile : Option Profile)
    (current : Record) (history : List Record)
    (h : ∃ s ∈ current.symptoms,
      jsToLower s = "chest pain" ∨ jsToLower s = "shortness of breath" ∨
      jsToLower s = "breathlessness") :
    generateAISuggestion now userProfile (some current) history =
      some { recordId := current.id,
             summary := "URGENT: Chest pain / breathlessness — seek emergency care now.",
             reasons := ["Chest pain / breathlessness reported"],
             suggestions :=
               ["Call emergency services or go to the nearest emergency department immediately.",
                "If available, take someone with you and inform them of the symptoms."],
             generatedAt := now } := by
  obtain ⟨s, hs, hlow⟩ := h
  have key : ∀ t : String, jsTrim t = t → jsToLower s = t →
      (current.symptoms.map (fun x => jsTrim (jsToLower x))).contains t = true :=
    fun t ht hlw =>
      List.elem_eq_true_of_mem
        (List.mem_map.mpr ⟨s, hs, show jsTrim (jsToLower s) = t by rw [hlw, ht]⟩)
  have hb : emergencySymptom current = true := by
    simp only [emergencySymptom, lowerTrimSymptoms, Bool.or_eq_true]
    rcases hlow with hlow | hlow | hlow
    · exact Or.inl (Or.inl (key "chest pain" (by decide) hlow))
    · exact Or.inl (Or.inr (key "shortness of breath" (by decide) hlow))
    · exact Or.inr (key "breathlessness" (by decide) hlow)
  simp [generateAISuggestion, hb]

/-- Witness for `suggestion_emergency_short_circuit`: the fixed output at a
record with symptom "Chest Pain", temperature 104°F and a medicated profile,
none of which alter the result. -/
theorem suggestion_emergency_witness :
    (∃ s ∈ ({ id := "w3", temperature := RawNum.val 104, symptoms := ["Chest Pain"] } : Record).symptoms,
      jsToLower s = "chest pain" ∨ jsToLower s = "shortness of breath" ∨
      jsToLower s = "breathlessness") ∧
    generateAISuggestion "t3" (some { medications := ["aspirin"], allergies := [] })
        (some { id := "w3", temperature := RawNum.val 104, symptoms := ["Chest Pain"] }) [] =
      some { recordId := "w3",
             summary := "URGENT: Chest pain / breathlessness — seek emergency care now.",
             reasons := ["Chest pain / breathlessness reported"],
             suggestions :=
               ["Call emergency services or go to the nearest emergency department immediately.",
                "If available, take someone with you and inform them of the symptoms."],
             generatedAt := "t3" } :=
  ⟨⟨"Chest Pain", by decide, Or.inl (by decide)⟩,
   suggestion_emergency_short_circuit "t3" (some { medications := ["aspirin"], allergies := [] })
     { id := "w3", temperature := RawNum.val 104, symptoms := ["Chest Pain"] } []
     ⟨"Chest Pain", by decide, Or.inl (by decide)⟩⟩

/-- Membership in the dedupe filter: an element survives iff it occurs in
the list and was not already seen. -/
theorem mem_dedupeKeep (seen l : List String) (s : String) :
    s ∈ dedupeKeep seen l ↔ s ∈ l ∧ s ∉ seen := by
  induction l generalizing seen with
  | nil => simp [dedupeKeep]
  | cons a t ih =>
    by_cases ha : a ∈ seen
    · rw [dedupeKeep, if_pos ha, ih seen]
      simp only [List.mem_cons]
      constructor
      · exact fun ⟨h1, h2⟩ => ⟨Or.inr h1, h2⟩
      · rintro ⟨h1 | h1, h2⟩
        · exact absurd (h1 ▸ ha) h2
        · exact ⟨h1, h2⟩
    · rw [dedupeKeep, if_neg ha]
      simp only [List.mem_cons, ih (a :: seen)]
      constructor
      · rintro (h | ⟨h1, h2⟩)
        · exact ⟨Or.inl h, h ▸ ha⟩
        · exact ⟨Or.inr h1, fun hs => h2 (Or.inr hs)⟩
      · rintro ⟨h1 | h1, h2⟩
        · exact Or.inl h1
        · by_cases hsa : s = a
          · exact Or.inl hsa
          · refine Or.inr ⟨h1, fun hh => ?_⟩
            rcases hh with hh | hh
            · exact hsa hh
            · exact h2 hh

/-- The dedupe filter returns a sublist (so first-occurrence order is
preserved). -/
theorem dedupeKeep_sublist (seen l : List String) : (dedupeKeep seen l).Sublist l := by
  induction l generalizing seen with
  | nil => simp [dedupeKeep]
  | cons a t ih =>
    by_cases ha : a ∈ seen
    · rw [dedupeKeep, if_pos ha]
      exact (ih seen).trans (List.sublist_cons_self a t)
    · rw [dedupeKeep, if_neg ha]
      exact (ih (a :: seen)).cons₂ a

/-- The dedupe filter returns a duplicate-free list. -/
theorem dedupeKeep_nodup (seen l : List String) : (dedupeKeep seen l).Nodup := by
  induction l generalizing seen with
  | nil => simp [dedupeKeep]
  | cons a t ih =>
    by_cases ha : a ∈ seen
    · rw [dedupeKeep, if_pos ha]; exact ih seen
    · rw [dedupeKeep, if_neg ha]
      refine List.nodup_cons.mpr ⟨fun hmem => ?_, ih (a :: seen)⟩
      exact ((mem_dedupeKeep _ _ _).mp hmem).2 (List.mem_cons_self a seen)

/-- A string append with a non-empty left part is non-empty. -/
theorem append_ne_empty (a b : String) (h : a ≠ "") : a ++ b ≠ "" := by
  intro hab
  apply h
  have hlen := congrArg String.length hab
  rw [String.length_append] at hlen
  have ha : a.length = 0 := Nat.eq_zero_of_add_eq_zero_right hlen
  cases a with
  | mk data =>
    cases data with
    | nil => rfl
    | cons c t => simp [String.length] at ha

/-- Every suggestion string pushed by steps 2-5 is non-empty. -/
theorem steps2to5_fst_ne_empty (c : Record) (h : List Record) (pr : Option Profile) :
    ∀ p ∈ steps2to5 c h pr, p.1 ≠ "" := by
  intro p hp
  simp only [steps2to5, List.mem_append] at hp
  rcases hp with ((h1 | h1) | h1) | h1 <;>
    (repeat' split at h1) <;>
    simp only [List.mem_append, List.mem_singleton, List.not_mem_nil, or_false, false_or] at h1 <;>
    first
      | exact h1.elim
      | (subst h1; exact append_ne_empty _ _ (append_ne_empty _ _ (by decide)))
      | (subst h1; simp)
      | (rcases h1 with h1 | h1 <;> subst h1 <;>
          first
            | exact append_ne_empty _ _ (append_ne_empty _ _ (by decide))
            | simp)

/-- Every suggestion string in the fallback-completed accumulation is
non-empty. -/
theorem withFallback_fst_ne_empty (c : Record) (h : List Record) (pr : Option Profile) :
    ∀ p ∈ withFallbackList c h pr, p.1 ≠ "" := by
  intro p hp
  rw [withFallbackList] at hp
  split at hp
  · rw [List.mem_singleton] at hp; subst hp; decide
  · exact steps2to5_fst_ne_empty c h pr p hp

/-- The fallback-completed accumulation is never empty. -/
theorem withFallback_ne_nil (c : Record) (h : List Record) (pr : Option Profile) :
    withFallbackList c h pr ≠ [] := by
  rw [withFallbackList]
  split
  · simp
  · assumption

/-- C7: when the emergency short-circuit does not fire, the returned
suggestion list is the steps-2-to-5 accumulation (fallback-completed)
deduplicated by exact string equality preserving first-occurrence order
(it equals the dedupe filter's output, is a duplicate-free sublist with the
same members), it is non-empty, the summary equals its first element, and
if steps 2-5 produced nothing the list is exactly the single generic
continue-monitoring suggestion. -/
theorem suggestion_postprocessing (now : String) (userProfile : Option Profile)
    (current : Record) (history : List Record)
    (hne : emergencySymptom current = false) :
    ∀ o, generateAISuggestion now userProfile (some current) history = some o →
      o.suggestions =
        dedupeKeep [] ((withFallbackList current history userProfile).map Prod.fst) ∧
      o.suggestions.Sublist ((withFallbackList current history userProfile).map Prod.fst) ∧
      o.suggestions.Nodup ∧
      (∀ s, s ∈ o.suggestions ↔
        s ∈ (withFallbackList current history userProfile).map Prod.fst) ∧
      o.suggestions ≠ [] ∧
      o.summary = o.suggestions.headI ∧
      (steps2to5 current history userProfile = [] →
        o.suggestions =
          ["No urgent issues detected. Monitor daily, rest, hydrate, and seek care if symptoms worsen."]) := by
  intro o ho
  rw [generateAISuggestion] at ho
  rw [if_neg (by rw [hne]; exact Bool.false_ne_true)] at ho
  set L := (withFallbackList current history userProfile).map Prod.fst with hL
  obtain rfl : o =
      { recordId := current.id,
        summary :=
          match dedupeKeep [] L with
          | [] => "No specific suggestion."
          | s :: _ => if s = "" then "No specific suggestion." else s,
        reasons := (withFallbackList current history userProfile).map Prod.snd,
        suggestions := dedupeKeep [] L,
        generatedAt := now } := (Option.some.injEq _ _ ▸ ho).symm
  have hfb : withFallbackList current history userProfile ≠ [] :=
    withFallback_ne_nil current history userProfile
  have hLne : L ≠ [] := by
    rw [hL]
    intro hnil
    exact hfb (List.map_eq_nil_iff.mp hnil)
  obtain ⟨x, xs, hx⟩ : ∃ x xs, L = x :: xs := by
    cases hcase : L with
    | nil => exact absurd hcase hLne
    | cons x xs => exact ⟨x, xs, rfl⟩
  have hded : dedupeKeep [] L = x :: dedupeKeep [x] xs := by
    rw [hx, dedupeKeep, if_neg (List.not_mem_nil x)]
  have hxne : x ≠ "" := by
    have hxL : x ∈ L := hx ▸ List.mem_cons_self x xs
    obtain ⟨p, hp, hpx⟩ := List.mem_map.mp hxL
    exact hpx ▸ withFallback_fst_ne_empty current history userProfile p hp
  refine ⟨rfl, dedupeKeep_sublist [] L, dedupeKeep_nodup [] L, ?_, ?_, ?_, ?_⟩
  · intro s
    rw [mem_dedupeKeep]
    simp
  · rw [hded]
    exact List.cons_ne_nil x _
  · show (match dedupeKeep [] L with
      | [] => "No specific suggestion."
      | s :: _ => if s = "" then "No specific suggestion." else s) =
        (dedupeKeep [] L).headI
    rw [hded]
    simp [List.headI, hxne]
  · intro hsteps
    have hfb1 : withFallbackList current history userProfile =
        [("No urgent issues detected. Monitor daily, rest, hydrate, and seek care if symptoms worsen.",
          "Routine monitoring")] := by
      rw [withFallbackList, if_pos hsteps]
    show dedupeKeep [] L =
      ["No urgent issues detected. Monitor daily, rest, hydrate, and seek care if symptoms worsen."]
    rw [hL, hfb1]
    decide

/-- Witness for `suggestion_postprocessing` at `witnessRecord7` (the
fallback path, evaluated concretely). -/
theorem suggestion_postprocessing_witness :
    emergencySymptom witnessRecord7 = false ∧
    generateAISuggestion "t7" none (some witnessRecord7) [] = some witnessOut7 ∧
    witnessOut7.suggestions =
      dedupeKeep [] ((withFallbackList witnessRecord7 [] none).map Prod.fst) ∧
    witnessOut7.suggestions ≠ [] ∧
    witnessOut7.summary = witnessOut7.suggestions.headI := by
  have hgen : generateAISuggestion "t7" none (some witnessRecord7) [] = some witnessOut7 := by
    decide
  have hall := suggestion_postprocessing "t7" none witnessRecord7 [] (by decide) witnessOut7 hgen
  exact ⟨by decide, hgen, hall.1, hall.2.2.2.2.1, hall.2.2.2.2.2.1⟩

/-- C8 (counterexample): `nearest` does not return its matches "sorted
ascending by distance with unknown-distance entries last": hospital A (0 km,
at the user's location) is ordered after B (5 km), because the comparator
key maps the falsy distance 0 to Infinity.  Also the claim's quantification
over every query fails at the empty query: hospital A matches the empty
query under the claimed predicate, yet `nearest` returns null. -/
theorem nearest_claim_counterexample :
    nearest geoZero c8State "heart" = some [c8B, c8A] ∧
    c8A.distanceKm = JsDist.fin 0 ∧
    c8B.distanceKm = JsDist.fin 5 ∧
    (nearest geoZero c8State "heart").map ascendingByDistance = some false ∧
    nearest geoZero c8State "" = none ∧
    c8State.hospitals ≠ [] ∧
    matchesQuery (jsTrim (jsToLower "")) c8A = true := by
  decide

/-- C8 (amended): for every non-empty query, `nearest` returns null exactly
when no hospital matches the trimmed lowercased query (equal category, or
substring of a specialty tag or of the name); otherwise it returns the first
3 of the matches — with missing/non-finite cached distances recomputed —
sorted ascending by the comparator key `distanceKm || Infinity`, which maps
missing, non-finite AND exactly-zero distances to infinity.  (For the empty
query `nearest` returns null without matching.) -/
theorem nearest_spec (geo : ℚ → ℚ → ℚ → ℚ → ℚ) (st : AppState) (ty : String)
    (hq : ty ≠ "") :
    (nearest geo st ty = none ↔
      st.hospitals.filter (fun h => matchesQuery (jsTrim (jsToLower ty)) h) = []) ∧
    ∀ l, nearest geo st ty = some l →
      l = (sortByDistance
            ((st.hospitals.filter (fun h => matchesQuery (jsTrim (jsToLower ty)) h)).map
              (recomputeDist geo st))).take 3 ∧
      l.length ≤ 3 ∧
      l.Pairwise (fun a b => hospKey a ≤ hospKey b) := by
  have hne : nearest geo st ty =
      (if st.hospitals.filter (fun h => matchesQuery (jsTrim (jsToLower ty)) h) = []
       then none
       else some ((sortByDistance
          ((st.hospitals.filter (fun h => matchesQuery (jsTrim (jsToLower ty)) h)).map
            (recomputeDist geo st))).take 3)) := by
    rw [nearest, if_neg hq]
  have hsorted : ∀ m : List Hospital,
      (sortByDistance m).Pairwise (fun a b => hospKey a ≤ hospKey b) := by
    intro m
    haveI h1 : IsTotal Hospital (fun a b => hospKey a ≤ hospKey b) :=
      ⟨fun a b => le_total _ _⟩
    haveI h2 : IsTrans Hospital (fun a b => hospKey a ≤ hospKey b) :=
      ⟨fun a b c => le_trans⟩
    exact List.sorted_insertionSort _ m
  constructor
  · rw [hne]
    constructor
    · intro h0
      by_contra hf
      rw [if_neg hf] at h0
      exact Option.noConfusion h0
    · intro hf
      rw [if_pos hf]
  · intro l hl
    rw [hne] at hl
    by_cases hf :
        st.hospitals.filter (fun h => matchesQuery (jsTrim (jsToLower ty)) h) = []
    · rw [if_pos hf] at hl
      exact Option.noConfusion hl
    · rw [if_neg hf] at hl
      have heq := Option.some.inj hl
      refine ⟨heq.symm, ?_, ?_⟩
      · rw [← heq]
        exact List.length_take_le 3 _
      · rw [← heq]
        exact (hsorted _).sublist (List.take_sublist 3 _)

/-- Witness for `nearest_spec` on the query "heart": A matches by category,
B by specialty substring, returned as [B, A] by ascending distance. -/
theorem nearest_spec_witness :
    ("heart" : String) ≠ "" ∧
    (nearest geoZero w8State "heart" = none ↔
      w8State.hospitals.filter (fun h => matchesQuery (jsTrim (jsToLower "heart")) h) = []) ∧
    ([w8B, w8A] = (sortByDistance
        ((w8State.hospitals.filter (fun h => matchesQuery (jsTrim (jsToLower "heart")) h)).map
          (recomputeDist geoZero w8State))).take 3 ∧
      ([w8B, w8A] : List Hospital).length ≤ 3 ∧
      List.Pairwise (fun a b => hospKey a ≤ hospKey b) [w8B, w8A]) := by
  have hspec := nearest_spec geoZero w8State "heart" (by decide)
  exact ⟨by decide, hspec.1, hspec.2 [w8B, w8A] (by decide)⟩

/-- C10: the falsy sort key maps a cached distance of exactly 0 km to
Infinity, so in both `nearest` and the filter-based listing a hospital
located exactly at the user's coordinates is ordered after every hospital
with positive finite distance instead of first. -/
theorem zero_distance_ordered_last :
    jsFalsyKey (JsDist.fin 0) = ⊤ ∧
    c10Zero.lat = c10State.userLat ∧
    c10Zero.lng = c10State.userLon ∧
    c10Zero.distanceKm = JsDist.fin 0 ∧
    nearest geoZero c10State "clinic" = some [c10Near, c10Far, c10Zero] ∧
    renderHospitalsList c10State = [c10Near, c10Far, c10Zero] := by
  decide

end HealthMonitor
